import Mathlib

/-!
Shallow embedding of `netxml2kml` (snippet.py): a converter from Kismet
Newcore `.netxml` capture files to KML/KMZ.  Python dictionaries are
embedded as association lists with dictionary-assignment semantics
(`dinsert` replaces the value at an existing key in place, otherwise
appends); dictionary lookup is `alookup`.  Machine floats stored in the
`gps` mapping are embedded as `Rat`: the program only stores and reprints
them, it never computes with them.  The `first-time` / `last-time`
timestamp strings are embedded as the epoch seconds they denote (`Int`):
the program converts them with `time.strptime` / `time.mktime` before any
arithmetic, and only ever formats them back for display.
-/

namespace Netxml

/-- Dictionary lookup `d[k]` on an association list (returns `none` where
Python would raise `KeyError` / where `k in d` is false). -/
def alookup {κ α : Type} [DecidableEq κ] : List (κ × α) → κ → Option α
  | [], _ => none
  | (k', v) :: rest, k => if k' = k then some v else alookup rest k

/-- Dictionary assignment `d[k] = v`: replace the value at an existing key
in place, otherwise append the new binding (CPython dicts preserve the
position of an existing key on re-assignment and append new keys). -/
def dinsert {κ α : Type} [DecidableEq κ] : List (κ × α) → κ → α → List (κ × α)
  | [], k, v => [(k, v)]
  | (k', v') :: rest, k, v =>
    if k' = k then (k, v) :: rest else (k', v') :: dinsert rest k v

/-- A value stored in the per-SSID dictionary `self.parser["ssid"]`: either
a character-data string (keys `type`, `ssid`, `essid`, `max-rate`,
`packets`, `beaconrate`, `info`, `cloaked`) or the nested `encryption`
dictionary, whose keys are the observed cipher tokens (values always
`True`, so it is embedded as the token list in insertion order). -/
inductive SsidVal : Type
  | str (s : String)
  | enc (tokens : List String)
deriving DecidableEq

/-- The SSID dictionary built between `<SSID>` and `</SSID>`. -/
abbrev Ssid : Type := List (String × SsidVal)

/-- `{"encryption":{}}` — the initial SSID dictionary allocated on the
`SSID` start tag (snippet.py line 198). -/
def Ssid.start : Ssid := [(("encryption" : String), SsidVal.enc [])]

/-- `WirelessNetwork.__init__` (snippet.py lines 17-35).  Fields that the
program initialises but never reads nor writes afterwards (`freqmhz`,
`maxrate`, `maxseenrate`, `packets`, `snr`, `datasize`, `carrier`,
`bsstimestamp`, `ipaddress` — their assignments are commented out in the
source) are omitted.  `firsttime`/`lasttime` hold the epoch seconds
denoted by the `first-time`/`last-time` attribute strings. -/
structure WirelessNetwork : Type where
  type : String
  firsttime : Int
  lasttime : Int
  bssid : String := ""
  manuf : String := ""
  ssid : List Ssid := []
  channel : Int := 0
  gps : List (String × Rat) := []
deriving DecidableEq

/-- `WirelessNetwork.update` (snippet.py lines 52-58): merge a new sighting
of an already-known network into the existing record.  Only the `gps`
mapping can change, and only when the existing one is empty and the
incoming one is not. -/
def WirelessNetwork.update (self new : WirelessNetwork) : WirelessNetwork :=
  if self.gps = [] ∧ new.gps ≠ [] then { self with gps := new.gps } else self

/-- The record store `self.networks`: a dictionary keyed by BSSID. -/
abbrev Networks : Type := List (String × WirelessNetwork)

/-- The `"wireless-network"` branch of `parse_end_element` (snippet.py
lines 207-213), restricted to its effect on `self.networks` (the
`new`/`update` statistics counters are omitted): if the BSSID is already a
key, update the existing record in place via `WirelessNetwork.update`;
otherwise insert the freshly built record.  There is no check that the
BSSID is non-empty. -/
def commit (networks : Networks) (wn : WirelessNetwork) : Networks :=
  match alookup networks wn.bssid with
  | some old => dinsert networks wn.bssid (old.update wn)
  | none => dinsert networks wn.bssid wn

/-- The `"SSID"` branch of `parse_end_element` (snippet.py lines 214-218),
restricted to its effect on the active record's `ssid` list: append the
active SSID dictionary when it is non-empty, contains the key `"type"`,
and the enclosing element is `wireless-network`.  (`parents.head?` embeds
`self.parser["parents"][0]`; during an `SSID` close the parents stack is
never empty.) -/
def ssid_end_commit (ssid : Ssid) (parents : List String) (wnSsids : List Ssid) :
    List Ssid :=
  if 0 < ssid.length ∧ (alookup ssid ("type")).isSome ∧
      parents.head? = some ("wireless-network")
  then wnSsids ++ [ssid] else wnSsids

/-- `py.startswith` on character lists: does the first list start with the
second? -/
def startsWithChars : List Char → List Char → Bool
  | _, [] => true
  | [], _ :: _ => false
  | x :: xs, y :: ys => x = y && startsWithChars xs ys

/-- Python's `str.startswith(pre)`. -/
def strStartswith (s pre : String) : Bool :=
  startsWithChars s.data pre.data

/-- `netxml.categorize_encryption` (snippet.py lines 360-370).  The Python
argument is either the token list produced by `get_from_ssid('encryption')`
or the empty string `""` (when no tokens exist); iterating over `""` and
testing membership in `""` behaves exactly like the empty list, so the
embedding takes a token list. -/
def categorize_encryption (encryption : List String) : String :=
  if encryption.any (fun c => strStartswith c ("WPA")) then ("WPA" : String)
  else if encryption.contains ("WEP") then ("WEP" : String)
  else if encryption.contains ("None") then ("None" : String)
  else ("Other" : String)

/-- `WirelessNetwork.get_from_ssid` (snippet.py lines 37-50) specialised
to string-valued keys (the program calls it so only with `'essid'`, whose
stored values are character-data strings): return the first non-empty
value of `key` found scanning the SSID observations; `""` when none. -/
def WirelessNetwork.get_from_ssid_str (self : WirelessNetwork) (key : String) :
    String :=
  go self.ssid
where
  go : List Ssid → String
    | [] => ""
    | s :: rest =>
      match alookup s key with
      | some (SsidVal.str v) => if v ≠ "" then v else go rest
      | _ => go rest

/-- `WirelessNetwork.get_from_ssid` (snippet.py lines 37-50) specialised
to dictionary-valued keys (the program calls it so only with
`'encryption'`): union the keys of the per-observation dictionaries in
order, skipping duplicates.  The Python function returns the string `""`
instead of an empty list when the union is empty; downstream code treats
the two identically (see `categorize_encryption`), so the embedding
returns the (possibly empty) list. -/
def WirelessNetwork.get_from_ssid_enc (self : WirelessNetwork) (key : String) :
    List String :=
  go self.ssid []
where
  go : List Ssid → List String → List String
    | [], result => result
    | s :: rest, result =>
      match alookup s key with
      | some (SsidVal.enc toks) =>
        go rest (toks.foldl (fun r t => if t ∈ r then r else r ++ [t]) result)
      | _ => go rest result

/-- Replace every occurrence of the character `c` by the string `rep`,
scanning left to right — `str.replace` for a one-character pattern. -/
def replaceChar (c : Char) (rep : List Char) : List Char → List Char
  | [] => []
  | x :: xs => if x = c then rep ++ replaceChar c rep xs else x :: replaceChar c rep xs

/-- The escaping chain applied to the display name (snippet.py line 315):
`.replace("<","&lt;").replace(">","&gt;").replace("&","&amp;")`, in that
order (each pattern is a single character). -/
def escapeName (s : String) : String :=
  ⟨replaceChar '&' ("&amp;").data
    (replaceChar '>' ("&gt;").data
      (replaceChar '<' ("&lt;").data s.data))⟩

/-- Insertion sort, descending (`list.sort(reverse=True)` on strings). -/
def sortDesc : List String → List String
  | [] => []
  | x :: xs => insertDesc x (sortDesc xs)
where
  insertDesc (x : String) : List String → List String
    | [] => [x]
    | y :: ys => if y ≤ x then x :: y :: ys else y :: insertDesc x ys

/-- Insertion sort of an association list by key, ascending
(`sorted(route)` iterates the dictionary's keys in ascending order; route
keys are distinct, so any ascending sort agrees with Python's). -/
def sortRoute {α : Type} : List (Int × α) → List (Int × α)
  | [] => []
  | x :: xs => insertAsc x (sortRoute xs)
where
  insertAsc (x : Int × α) : List (Int × α) → List (Int × α)
    | [] => [x]
    | y :: ys => if x.1 ≤ y.1 then x :: y :: ys else y :: insertAsc x ys

/-- One `KML_PLACEMARK` instantiation (snippet.py lines 60-72 and
326-331), with every `%s` slot as a field.  `name` is the literal text
substituted into the second slot: either `<name>…</name>` or `""` when
names are disabled.  `lon`/`lat` embed `wn.gps['avg-lon']` /
`wn.gps['avg-lat']` (`none` where Python would raise `KeyError`).
`color` embeds `colors[crypt]` the same way. -/
structure Placemark : Type where
  styleUrl : String
  name : String
  lon : Option Rat
  lat : Option Rat
  essid : String
  bssid : String
  manuf : String
  type : String
  channel : Int
  color : Option String
  encryption : String
  lasttime : Int
deriving DecidableEq

/-- The route dictionary: `lastSeen` second ↦ `(avg-lat, avg-lon)`. -/
abbrev Route : Type := List (Int × (Option Rat × Option Rat))

/-- The state accumulated by `output_kml_fill_folders` (snippet.py lines
306-338): the four per-category placemark lists, the four counters, and
the route dictionary. -/
structure FillResult : Type where
  wpa : List Placemark := []
  wep : List Placemark := []
  non : List Placemark := []
  other : List Placemark := []
  cWPA : Nat := 0
  cWEP : Nat := 0
  cNone : Nat := 0
  cOther : Nat := 0
  route : Route := []
deriving DecidableEq

/-- `colors={"WPA":"red","WEP":"orange","None":"green","Other":"grey"}`
(snippet.py line 308). -/
def colors : List (String × String) :=
  [(("WPA" : String), ("red" : String)), (("WEP" : String), ("orange" : String)),
   (("None" : String), ("green" : String)), (("Other" : String), ("grey" : String))]

/-- The body of the `for net in self.networks` loop of
`output_kml_fill_folders` (snippet.py lines 310-336) for one record:
skip records with empty `gps`; otherwise build the placemark, append it
to its category and bump that category's count, and, when the dwell time
`lasttime - firsttime` is under 300 seconds, assign the record's
coordinates to the route dictionary under its `lasttime` second. -/
def fillStep (disableNames : Bool) (res : FillResult) (wn : WirelessNetwork) :
    FillResult :=
  if wn.gps = [] then res else
  let essid := escapeName (wn.get_from_ssid_str ("essid"))
  let name := if disableNames then "" else "<name>" ++ essid ++ "</name>"
  let encL := wn.get_from_ssid_enc ("encryption")
  let crypt := categorize_encryption encL
  let encStr := if encL = [] then "" else String.intercalate (" ") (sortDesc encL)
  let pm : Placemark :=
    { styleUrl := crypt, name := name,
      lon := alookup wn.gps ("avg-lon"), lat := alookup wn.gps ("avg-lat"),
      essid := essid, bssid := wn.bssid, manuf := wn.manuf, type := wn.type,
      channel := wn.channel, color := alookup colors crypt,
      encryption := encStr, lasttime := wn.lasttime }
  let res :=
    if crypt = "WPA" then { res with wpa := res.wpa ++ [pm], cWPA := res.cWPA + 1 }
    else if crypt = "WEP" then { res with wep := res.wep ++ [pm], cWEP := res.cWEP + 1 }
    else if crypt = "None" then { res with non := res.non ++ [pm], cNone := res.cNone + 1 }
    else { res with other := res.other ++ [pm], cOther := res.cOther + 1 }
  if wn.lasttime - wn.firsttime < 300 then
    { res with
      route := dinsert res.route wn.lasttime
        (alookup wn.gps ("avg-lat"), alookup wn.gps ("avg-lon")) }
  else res

/-- `output_kml_fill_folders`'s loop over the record store, started from an
arbitrary accumulated state. -/
def fillFoldersFrom (disableNames : Bool) (res : FillResult) (networks : Networks) :
    FillResult :=
  networks.foldl (fun r p => fillStep disableNames r p.2) res

/-- `netxml.output_kml_fill_folders` (snippet.py lines 306-338): fold the
per-record step over the store (Python iterates the keys of
`self.networks` and looks each one up, i.e. visits the values in
insertion order). -/
def output_kml_fill_folders (networks : Networks) (disableNames : Bool) :
    FillResult :=
  fillFoldersFrom disableNames {} networks

/-- One string appended to the `output` list of `output_kml_route`
(snippet.py lines 340-358), with the `%`-formatting slots as payloads:
`folderOpen` is `<Folder><name>Routes</name>`, `segOpen` is the
`<Placemark>…<LineString><coordinates>` opener, `coord c` is the
`"lon,lat \n"` line for the stored value `c`, `segClose num lastSecond`
is the `</coordinates></LineString><name>Route num (end
strftime(lastSecond))</name></Placemark>` closer, and `folderClose` is
`</Folder>`. -/
inductive RTok (α : Type) : Type
  | folderOpen
  | segOpen
  | coord (c : α)
  | segClose (num : Nat) (lastSecond : Int)
  | folderClose
deriving DecidableEq

/-- The loop of `output_kml_route` (snippet.py lines 345-357) over the
remaining `(second, value)` pairs, carrying the segment counter `num`,
`last_second`, and the output list built so far (which starts as
`[folderOpen]`, so `1 < acc.length` embeds `len(output) > 1`).  After the
loop, the final segment closer and `</Folder>` are appended. -/
def routeGo {α : Type} : Nat → Int → List (RTok α) → List (Int × α) → List (RTok α)
  | num, last, acc, [] => acc ++ [RTok.segClose num last, RTok.folderClose]
  | num, last, acc, (second, c) :: rest =>
    if 1800 < second - last then
      if 1 < acc.length then
        routeGo (num + 1) second
          (acc ++ [RTok.segClose num last, RTok.segOpen, RTok.coord c]) rest
      else
        routeGo num second (acc ++ [RTok.segOpen, RTok.coord c]) rest
    else
      routeGo num second (acc ++ [RTok.coord c]) rest

/-- `netxml.output_kml_route` (snippet.py lines 340-358), taking the
route entries already sorted ascending by second (Python's
`for second in sorted(route)`). -/
def output_kml_route {α : Type} (sortedRoute : List (Int × α)) : List (RTok α) :=
  routeGo 1 0 [RTok.folderOpen] sortedRoute

/-- One string appended to the KML output stream by `output_kml`
(snippet.py lines 261-301): a literal text chunk, one `KML_FOLDER`
instantiation (crypt name, count, style id = crypt, icon picture name,
placemark list), or one route token. -/
inductive KTok : Type
  | text (s : String)
  | folder (crypt : String) (count : Nat) (pic : String) (placemarks : List Placemark)
  | route (t : RTok (Option Rat × Option Rat))
deriving DecidableEq

/-- `netxml.output_kml` (snippet.py lines 261-301) as the sequence of
chunks handed to `target.add`: the five header strings, the four category
folders in the fixed order WPA, WEP, None, Other (icon picture `"Open"`
for the latter two), the route section, and the footer. -/
def output_kml (networks : Networks) (disableNames : Bool) : List KTok :=
  let res := output_kml_fill_folders networks disableNames
  [KTok.text ("<?xml version=\x271.0\x27 encoding=\x27UTF-8\x27?>\r\n"),
   KTok.text ("<kml xmlns=\x27http://earth.google.com/kml/2.1\x27>\r\n"),
   KTok.text ("<Document>\r\n"),
   KTok.text ("<name>netxml2kml</name>\r\n"),
   KTok.text ("<open>1</open>")] ++
  [KTok.folder ("WPA") res.cWPA ("WPA") res.wpa,
   KTok.folder ("WEP") res.cWEP ("WEP") res.wep,
   KTok.folder ("None") res.cNone ("Open") res.non,
   KTok.folder ("Other") res.cOther ("Open") res.other] ++
  (output_kml_route (sortRoute res.route)).map KTok.route ++
  [KTok.text ("\r\n</Document>\r\n</kml>")]

/-- One file-level parse occurrence, at the granularity the failure
semantics need.  `commitRec wn` abstracts a complete, well-formed
`<wireless-network>…</wireless-network>` element whose end handler
commits the built record `wn` (snippet.py lines 207-213); `missingAttr`
abstracts a `wireless-network` start tag lacking one of the required
attributes `type`, `first-time`, `last-time`, on which
`parse_start_element` raises an uncaught `KeyError` (lines 190-194);
`syntaxError` abstracts the point where `xml.parsers.expat` raises an
`ExpatError` on malformed XML (line 179). -/
inductive ParseEvent : Type
  | commitRec (wn : WirelessNetwork)
  | missingAttr
  | syntaxError
deriving DecidableEq

/-- `netxml.parse` (snippet.py lines 159-184) on one file, as a fold of
its events over the shared store `self.networks`.  The method wraps no
handler in `try`/`except`, so the first `KeyError` or `ExpatError`
escapes `p.ParseFile`: parsing stops there and the exception propagates
to the caller.  `Except.error` carries the store at the moment of the
exception, because commits mutate `self.networks` in place and survive
the abort. -/
def parseEvents : Networks → List ParseEvent → Except Networks Networks
  | nets, [] => Except.ok nets
  | nets, ParseEvent.commitRec wn :: rest => parseEvents (commit nets wn) rest
  | nets, ParseEvent.missingAttr :: _ => Except.error nets
  | nets, ParseEvent.syntaxError :: _ => Except.error nets

/-- The input loop of `netxml.main` (snippet.py lines 107-114): each file
is handed to `self.parse` in order, with no `try`/`except` around the
call, so an exception raised while parsing one file aborts the whole
batch — no later file is processed. -/
def batchParse : Networks → List (List ParseEvent) → Except Networks Networks
  | nets, [] => Except.ok nets
  | nets, f :: fs =>
    match parseEvents nets f with
    | Except.ok n => batchParse n fs
    | Except.error n => Except.error n

/-- One step of reading the route token stream back into coordinate
groups: a `coord` extends the current group, a `segClose` ends it (this
is how a reader of the emitted KML delimits the route's line strings). -/
def segStep {α : Type} (st : List α × List (List α)) : RTok α → List α × List (List α)
  | RTok.coord c => (st.1 ++ [c], st.2)
  | RTok.segClose _ _ => ([], st.2 ++ [st.1])
  | _ => st

/-- The reader state after a route token stream. -/
def segState {α : Type} (ts : List (RTok α)) : List α × List (List α) :=
  ts.foldl segStep ([], [])

/-- The coordinate groups delimited by segment closers in a route token
stream. -/
def segmentsOf {α : Type} (ts : List (RTok α)) : List (List α) :=
  (segState ts).2

/-- Modelled from the spec: the route segments as §4.4 describes them —
"start a new segment whenever the gap to the previous waypoint's
timestamp exceeds 1800 seconds (or at the very first waypoint); otherwise
append to the current segment". -/
def specSegments {α : Type} : List (Int × α) → List (List α)
  | [] => []
  | (t, c) :: rest => specGo t [c] [] rest
where
  specGo : Int → List α → List (List α) → List (Int × α) → List (List α)
    | _, cur, acc, [] => acc ++ [cur]
    | prev, cur, acc, (t, c) :: rest =>
      if 1800 < t - prev then specGo t [c] (acc ++ [cur]) rest
      else specGo t (cur ++ [c]) acc rest

/-- Modelled from the spec: "carries at least one populated field"
(§4.1's condition for appending the active SSID on `</SSID>`): some
character-data field has been stored, or some encryption token observed. -/
def ssidPopulatedSpec (s : Ssid) : Bool :=
  s.any fun kv =>
    match kv.2 with
    | SsidVal.str _ => true
    | SsidVal.enc toks => !toks.isEmpty

/-! ## Helper lemmas -/

/-- After `d[k] = v`, looking up `k` yields `v`. -/
theorem alookup_dinsert_self {κ α : Type} [DecidableEq κ] :
    ∀ (l : List (κ × α)) (k : κ) (v : α), alookup (dinsert l k v) k = some v
  | [], k, v => by simp [dinsert, alookup]
  | (a, b) :: rest, k, v => by
    by_cases hak : a = k
    · simp [dinsert, hak, alookup]
    · simp [dinsert, hak, alookup, alookup_dinsert_self rest k v]

/-- Dictionary assignment never removes a key. -/
theorem alookup_dinsert_isSome {κ α : Type} [DecidableEq κ] :
    ∀ (l : List (κ × α)) (k k' : κ) (v : α),
      (alookup l k').isSome → (alookup (dinsert l k v) k').isSome
  | [], _, k', _, h => by simp [alookup] at h
  | (a, b) :: rest, k, k', v, h => by
    by_cases hak : a = k
    · subst hak
      by_cases hak' : a = k'
      · simp [dinsert, alookup, hak']
      · simp [alookup, hak'] at h
        simp [dinsert, alookup, hak', h]
    · by_cases hak' : a = k'
      · subst hak'
        simp [dinsert, hak, alookup]
      · simp [alookup, hak'] at h
        simp [dinsert, hak, alookup, hak', alookup_dinsert_isSome rest k k' v h]

/-- A committed record never removes other records from the store. -/
theorem commit_isSome (nets : Networks) (wn : WirelessNetwork) (k : String)
    (h : (alookup nets k).isSome) : (alookup (commit nets wn) k).isSome := by
  unfold commit
  cases alookup nets wn.bssid <;> exact alookup_dinsert_isSome nets wn.bssid k _ h

/-- When parsing a file stops with an exception, every key present in the
store at the start of the file is still present in the store at the
moment the exception escapes. -/
theorem parseEvents_error_isSome :
    ∀ (evs : List ParseEvent) (nets e : Networks),
      parseEvents nets evs = Except.error e →
      ∀ k, (alookup nets k).isSome → (alookup e k).isSome
  | [], nets, e, h => by simp [parseEvents] at h
  | ParseEvent.commitRec wn :: rest, nets, e, h => fun k hk =>
    parseEvents_error_isSome rest (commit nets wn) e h k (commit_isSome nets wn k hk)
  | ParseEvent.missingAttr :: _, nets, e, h => by
    simp [parseEvents] at h
    exact h ▸ fun k hk => hk
  | ParseEvent.syntaxError :: _, nets, e, h => by
    simp [parseEvents] at h
    exact h ▸ fun k hk => hk

/-- `WirelessNetwork.update` as a single record equation. -/
theorem update_eq (s n : WirelessNetwork) :
    s.update n = { s with gps := if s.gps = [] ∧ n.gps ≠ [] then n.gps else s.gps } := by
  unfold WirelessNetwork.update
  by_cases h : s.gps = [] ∧ n.gps ≠ [] <;> simp [h]

/-! ## Claims -/

/-- C1: committing a record whose `hardwareId` already exists retains the
existing record in place; its `gps` is replaced wholesale by the incoming
`gps` exactly when the existing `gps` is empty and the incoming one is
not, and every other field keeps the existing record's value (every other
incoming field is discarded). -/
theorem c1_merge_policy (nets : Networks) (wn old : WirelessNetwork)
    (h : alookup nets wn.bssid = some old) :
    commit nets wn = dinsert nets wn.bssid (old.update wn) ∧
    old.update wn =
      { old with gps := if old.gps = [] ∧ wn.gps ≠ [] then wn.gps else old.gps } := by
  constructor
  · unfold commit
    rw [h]
  · exact update_eq old wn

/-- Records used by concrete instantiations below. -/
def wnW1 : WirelessNetwork :=
  { type := "infrastructure", firsttime := 0, lasttime := 10, bssid := "aa" }

/-- A second sighting of `wnW1`'s network, with GPS data. -/
def wnW2 : WirelessNetwork :=
  { type := "probe", firsttime := 5, lasttime := 20, bssid := "aa",
    gps := [(("avg-lat" : String), (3 : Rat)), (("avg-lon" : String), 4)] }

theorem c1_merge_policy_witness :
    commit [(("aa" : String), wnW1)] wnW2 =
      dinsert [(("aa" : String), wnW1)] wnW2.bssid (wnW1.update wnW2) ∧
    wnW1.update wnW2 =
      { wnW1 with
        gps := if wnW1.gps = [] ∧ wnW2.gps ≠ [] then wnW2.gps else wnW1.gps } :=
  c1_merge_policy [(("aa" : String), wnW1)] wnW2 wnW1 (by decide)

/-- C2: the classifier returns WPA when some token starts with "WPA";
otherwise WEP when "WEP" is present; otherwise None when "None" is
present; otherwise Other. -/
theorem c2_classifier_precedence (enc : List String) :
    ((∃ t ∈ enc, strStartswith t ("WPA") = true) →
      categorize_encryption enc = "WPA") ∧
    ((∀ t ∈ enc, strStartswith t ("WPA") = false) → ("WEP" : String) ∈ enc →
      categorize_encryption enc = "WEP") ∧
    ((∀ t ∈ enc, strStartswith t ("WPA") = false) → ("WEP" : String) ∉ enc →
      ("None" : String) ∈ enc → categorize_encryption enc = "None") ∧
    ((∀ t ∈ enc, strStartswith t ("WPA") = false) → ("WEP" : String) ∉ enc →
      ("None" : String) ∉ enc → categorize_encryption enc = "Other") := by
  refine ⟨?_, ?_, ?_, ?_⟩
  · rintro ⟨t, ht, hw⟩
    have ha : enc.any (fun c => strStartswith c ("WPA")) = true :=
      List.any_eq_true.mpr ⟨t, ht, hw⟩
    simp [categorize_encryption, ha]
  · intro hall hmem
    have ha : enc.any (fun c => strStartswith c ("WPA")) = false := by
      simp only [List.any_eq_false]
      intro t ht
      simp [hall t ht]
    simp [categorize_encryption, ha, List.elem_iff, hmem]
  · intro hall hwep hnone
    have ha : enc.any (fun c => strStartswith c ("WPA")) = false := by
      simp only [List.any_eq_false]
      intro t ht
      simp [hall t ht]
    simp [categorize_encryption, ha, List.elem_iff, hwep, hnone]
  · intro hall hwep hnone
    have ha : enc.any (fun c => strStartswith c ("WPA")) = false := by
      simp only [List.any_eq_false]
      intro t ht
      simp [hall t ht]
    simp [categorize_encryption, ha, List.elem_iff, hwep, hnone]

theorem c2_classifier_precedence_witness :
    categorize_encryption [("WPA TKIP" : String), ("WEP" : String)] = "WPA" :=
  (c2_classifier_precedence [("WPA TKIP" : String), ("WEP" : String)]).1
    ⟨("WPA TKIP" : String), by simp, by decide⟩

/-- A freshly built record whose `<BSSID>` child never appeared: its
`bssid` is still the empty string when the element closes. -/
def wnNoBssid : WirelessNetwork :=
  { type := "infrastructure", firsttime := 0, lasttime := 0 }

/-- C4 counterexample: closing a `wireless-network` element whose record
has an empty `hardwareId` does NOT drop the record — `parse_end_element`
commits it unconditionally, and it appears in the store under the
empty-string key. -/
theorem c4_counterexample :
    commit [] wnNoBssid = [(("" : String), wnNoBssid)] ∧
    (alookup (commit [] wnNoBssid) ("")).isSome = true := by
  exact ⟨rfl, rfl⟩

/-- C4 amended: on every close of a `wireless-network` element the active
record is committed unconditionally — also when its `hardwareId` is
empty, in which case it is stored (and merged) under the empty-string
key; after the commit the store always holds a record under the incoming
record's `hardwareId`. -/
theorem c4_always_committed (nets : Networks) (wn : WirelessNetwork) :
    alookup (commit nets wn) wn.bssid =
      some (match alookup nets wn.bssid with
            | some old => old.update wn
            | none => wn) := by
  unfold commit
  cases h : alookup nets wn.bssid <;> simp [alookup_dinsert_self]

/-- A record committed by the first file of the three-file batch below. -/
def wnA : WirelessNetwork :=
  { type := "infrastructure", firsttime := 0, lasttime := 0, bssid := "aa:aa" }

/-- A record that the third file of the batch would commit. -/
def wnB : WirelessNetwork :=
  { type := "infrastructure", firsttime := 0, lasttime := 0, bssid := "bb:bb" }

/-- C3 counterexample: a batch of three files whose second is malformed
does NOT continue with the third file — `main`'s input loop wraps
`self.parse` in no exception handler, so the `ExpatError` aborts the
whole batch: the result is the propagated exception, the store holds the
first file's record, and the third file's record is absent. -/
theorem c3_counterexample :
    batchParse []
        [[ParseEvent.commitRec wnA], [ParseEvent.syntaxError],
         [ParseEvent.commitRec wnB]] =
      Except.error [(("aa:aa" : String), wnA)] ∧
    alookup [(("aa:aa" : String), wnA)] (("bb:bb" : String)) = none := by
  exact ⟨rfl, rfl⟩

/-- C3 amended: an XML syntax error (and likewise a missing required
attribute) raises an uncaught exception: parsing of the current file
stops at the error point and the whole batch stops with it — no later
file is processed.  Records committed before the failure, from prior
files and from the failing file's already-parsed prefix, remain in the
store.  A missing required attribute aborts the file rather than dropping
only the affected record. -/
theorem c3_uncaught_abort (nets : Networks) (f : List ParseEvent)
    (fs : List (List ParseEvent)) (e : Networks)
    (h : parseEvents nets f = Except.error e) :
    batchParse nets (f :: fs) = Except.error e ∧
    (∀ k, (alookup nets k).isSome → (alookup e k).isSome) ∧
    (∀ rest, parseEvents nets (ParseEvent.missingAttr :: rest) = Except.error nets) := by
  refine ⟨?_, parseEvents_error_isSome f nets e h, fun _ => rfl⟩
  unfold batchParse
  rw [h]

theorem c3_uncaught_abort_witness :
    batchParse [] [[ParseEvent.syntaxError]] = Except.error [] ∧
    (∀ k, (alookup ([] : Networks) k).isSome → (alookup ([] : Networks) k).isSome) ∧
    (∀ rest, parseEvents [] (ParseEvent.missingAttr :: rest) = Except.error []) :=
  c3_uncaught_abort [] [ParseEvent.syntaxError] [] [] rfl

/-- A record whose `essid` character data was the single character `<`
(stored before escaping), with GPS data so that it qualifies for output. -/
def wnLtName : WirelessNetwork :=
  { type := "infrastructure", firsttime := 0, lasttime := 0, bssid := "aa:bb",
    ssid := [dinsert (dinsert Ssid.start ("type") (SsidVal.str ("Beacon")))
               ("essid") (SsidVal.str ("<"))],
    gps := [(("avg-lat" : String), (1 : Rat)), (("avg-lon" : String), 2)] }

/-- C6: the rendered display name of a record whose essid is `<` is
`&amp;lt;`, not `&lt;` — the code replaces `&` last, so the `&` of the
entity `&lt;` it just introduced is escaped again (same for `>`); only a
literal `&` comes out right.  The suppress-names half of the claim does
hold: with the option set the name text is empty. -/
theorem c6_escaping_eval :
    escapeName ("<") = "&amp;lt;" ∧
    escapeName (">") = "&amp;gt;" ∧
    escapeName ("&") = "&amp;" ∧
    (output_kml_fill_folders [(("aa:bb" : String), wnLtName)] false).other.map
        Placemark.name = ["<name>&amp;lt;</name>"] ∧
    (output_kml_fill_folders [(("aa:bb" : String), wnLtName)] true).other.map
        Placemark.name = [""] := by
  decide

/-- Is this output chunk the opening of a route segment? -/
def isRouteSegOpen : KTok → Bool
  | KTok.route RTok.segOpen => true
  | _ => false

/-- Is this output chunk the closing of a route segment? -/
def isRouteSegClose : KTok → Bool
  | KTok.route (RTok.segClose _ _) => true
  | _ => false

/-- A store whose only record has no GPS data: no record qualifies for
any category, yet the store is non-empty, so `main` does call the
serializer. -/
def noGpsStore : Networks :=
  [(("aa" : String), { type := "probe", firsttime := 0, lasttime := 0, bssid := "aa" })]

/-- C8: with zero qualifying records the document does contain the header,
the four category sections in order WPA, WEP, None, Other with no
placemarks, and the route section — but it is NOT well-formed: the route
section consists of the `Routes` folder opening, then a segment CLOSER
(`</coordinates></LineString><name>Route 1 (end …)</name></Placemark>`,
labelled with `last_second = 0`) for which no segment opener was ever
emitted, then `</Folder>`. -/
theorem c8_empty_output_eval :
    output_kml noGpsStore false =
      [KTok.text ("<?xml version=\x271.0\x27 encoding=\x27UTF-8\x27?>\r\n"),
       KTok.text ("<kml xmlns=\x27http://earth.google.com/kml/2.1\x27>\r\n"),
       KTok.text ("<Document>\r\n"),
       KTok.text ("<name>netxml2kml</name>\r\n"),
       KTok.text ("<open>1</open>"),
       KTok.folder ("WPA") 0 ("WPA") [],
       KTok.folder ("WEP") 0 ("WEP") [],
       KTok.folder ("None") 0 ("Open") [],
       KTok.folder ("Other") 0 ("Open") [],
       KTok.route RTok.folderOpen,
       KTok.route (RTok.segClose 1 0),
       KTok.route RTok.folderClose,
       KTok.text ("\r\n</Document>\r\n</kml>")] ∧
    (output_kml noGpsStore false).filter isRouteSegOpen = [] ∧
    ((output_kml noGpsStore false).filter isRouteSegClose).length = 1 := by
  decide

/-- An SSID dictionary carrying a populated `essid` field but no `type`
field. -/
def ssidEssidOnly : Ssid :=
  dinsert Ssid.start ("essid") (SsidVal.str ("HomeNet"))

/-- C9 counterexample: on `</SSID>` an SSID record that carries a
populated field (`essid`) but no `"type"` key is NOT appended to the
owning record's observations, refuting "appended iff at least one
populated field". -/
theorem c9_counterexample :
    ssidPopulatedSpec ssidEssidOnly = true ∧
    ssid_end_commit ssidEssidOnly [("wireless-network")] [] = [] := by
  decide

/-- C9 amended: on every close of an SSID element the active SSID record
is appended to the owning record's observations if and only if its
dictionary contains the key `"type"` and the immediately enclosing
element is `wireless-network` (the code's non-emptiness test is vacuous:
the dictionary always contains its initial `encryption` entry). -/
theorem c9_type_key_required (ssid : Ssid) (parents : List String)
    (acc : List Ssid) (h : (alookup ssid ("encryption")).isSome) :
    ssid_end_commit ssid parents acc = acc ++ [ssid] ↔
      ((alookup ssid ("type")).isSome ∧
        parents.head? = some ("wireless-network")) := by
  have hlen : 0 < ssid.length := by
    cases ssid with
    | nil => simp [alookup] at h
    | cons a rest => simp
  unfold ssid_end_commit
  constructor
  · intro he
    by_contra hc
    rw [if_neg (fun hcond => hc ⟨hcond.2.1, hcond.2.2⟩)] at he
    have := congrArg List.length he
    simp at this
  · intro hcond
    rw [if_pos ⟨hlen, hcond.1, hcond.2⟩]

/-- An SSID dictionary whose only stored field is `type`. -/
def ssidTypeOnly : Ssid :=
  dinsert Ssid.start ("type") (SsidVal.str ("Beacon"))

theorem c9_type_key_required_witness :
    ssid_end_commit ssidTypeOnly [("wireless-network")] [] =
        [] ++ [ssidTypeOnly] ↔
      ((alookup ssidTypeOnly ("type")).isSome ∧
        ([("wireless-network" : String)] : List String).head? =
          some ("wireless-network")) :=
  c9_type_key_required ssidTypeOnly [("wireless-network")] [] (by decide)

/-- Reading tokens appended on the right extends the reader fold. -/
theorem segState_append {α : Type} (ts extra : List (RTok α)) :
    segState (ts ++ extra) = extra.foldl segStep (segState ts) := by
  unfold segState
  rw [List.foldl_append]

/-- The spec walk on an empty remainder flushes the current segment. -/
theorem specGo_nil {α : Type} (prev : Int) (cur : List α) (acc : List (List α)) :
    specSegments.specGo prev cur acc [] = acc ++ [cur] :=
  rfl

/-- One step of the spec walk. -/
theorem specGo_cons {α : Type} (prev : Int) (cur : List α) (acc : List (List α))
    (t : Int) (c : α) (rest : List (Int × α)) :
    specSegments.specGo prev cur acc ((t, c) :: rest) =
      if 1800 < t - prev then specSegments.specGo t [c] (acc ++ [cur]) rest
      else specSegments.specGo t (cur ++ [c]) acc rest :=
  rfl

/-- The coordinate groups read back from `routeGo`'s output agree with the
spec's segmentation walk, given any already-emitted token prefix whose
reader state is `(cur, accS)` and which contains more than the folder
opener (so that the `len(output) > 1` test holds from here on). -/
theorem routeGo_segments {α : Type} :
    ∀ (rest : List (Int × α)) (num : Nat) (last : Int) (acc : List (RTok α)),
      1 < acc.length →
      segmentsOf (routeGo num last acc rest) =
        specSegments.specGo last (segState acc).1 (segState acc).2 rest
  | [], num, last, acc, _ => by
    unfold routeGo
    rw [specGo_nil]
    unfold segmentsOf
    rw [segState_append]
    simp [List.foldl, segStep]
  | (t, c) :: rest, num, last, acc, h => by
    rw [specGo_cons]
    unfold routeGo
    by_cases hg : 1800 < t - last
    · rw [if_pos hg, if_pos h, if_pos hg,
        routeGo_segments rest (num + 1) t _
          (by simp only [List.length_append, List.length_cons, List.length_nil]; omega)]
      rw [segState_append]
      simp [List.foldl, segStep]
    · rw [if_neg hg, if_neg hg,
        routeGo_segments rest num t _
          (by simp only [List.length_append, List.length_cons, List.length_nil]; omega)]
      rw [segState_append]
      simp [List.foldl, segStep]

/-- C5: for every non-empty waypoint sequence, the coordinate groups that
the emitted route section delimits are exactly the segments the spec's
walk produces — a segment begins at the very first waypoint and a new one
begins exactly when the gap to the previous waypoint's timestamp exceeds
1800 seconds; in particular, waypoints at timestamps 0, 100, 2000, 2100
yield exactly the two segments 0,100 and 2000,2100. -/
theorem c5_segmentation :
    (∀ (α : Type) (x : Int × α) (rest : List (Int × α)),
        segmentsOf (output_kml_route (x :: rest)) = specSegments (x :: rest)) ∧
    segmentsOf (output_kml_route
        [((0 : Int), (0 : Int)), (100, 100), (2000, 2000), (2100, 2100)]) =
      [[0, 100], [2000, 2100]] := by
  constructor
  · rintro α ⟨t, c⟩ rest
    unfold output_kml_route routeGo
    by_cases hg : 1800 < t - 0
    · rw [if_pos hg, if_neg (by simp)]
      rw [routeGo_segments rest 1 t _ (by simp)]
      rfl
    · rw [if_neg hg]
      rw [routeGo_segments rest 1 t _ (by simp)]
      rfl
  · decide

/-- The route dictionary written by one loop iteration of
`output_kml_fill_folders`. -/
theorem fillStep_route (d : Bool) (res : FillResult) (wn : WirelessNetwork) :
    (fillStep d res wn).route =
      if wn.gps = [] then res.route
      else if wn.lasttime - wn.firsttime < 300 then
        dinsert res.route wn.lasttime
          (alookup wn.gps ("avg-lat"), alookup wn.gps ("avg-lon"))
      else res.route := by
  unfold fillStep
  by_cases h1 : wn.gps = []
  · simp [h1]
  · simp only [if_neg h1]
    by_cases h2 : wn.lasttime - wn.firsttime < 300 <;>
      simp only [if_pos, if_neg, h2, ite_true, ite_false] <;>
      split_ifs <;> rfl

/-- C7: a qualifying record (non-empty `gps`) contributes a route waypoint
keyed by its `lasttime` second exactly when `lasttime - firsttime < 300`;
a dwell of 299 seconds is included, a dwell of exactly 300 is excluded. -/
theorem c7_dwell_inclusion (d : Bool) (res : FillResult) (k : String)
    (wn : WirelessNetwork) (h : wn.gps ≠ []) :
    (fillFoldersFrom d res [(k, wn)]).route =
      (if wn.lasttime - wn.firsttime < 300 then
        dinsert res.route wn.lasttime
          (alookup wn.gps ("avg-lat"), alookup wn.gps ("avg-lon"))
      else res.route) ∧
    (∀ T : Int,
      (output_kml_fill_folders
          [(k, { wn with firsttime := T, lasttime := T + 299 })] d).route =
        [(T + 299, (alookup wn.gps ("avg-lat"), alookup wn.gps ("avg-lon")))]) ∧
    (∀ T : Int,
      (output_kml_fill_folders
          [(k, { wn with firsttime := T, lasttime := T + 300 })] d).route = []) := by
  refine ⟨?_, ?_, ?_⟩
  · show (fillStep d res wn).route = _
    rw [fillStep_route, if_neg h]
  · intro T
    show (fillStep d {} { wn with firsttime := T, lasttime := T + 299 }).route = _
    rw [fillStep_route]
    simp only [if_neg h]
    rw [if_pos (by omega)]
    rfl
  · intro T
    show (fillStep d {} { wn with firsttime := T, lasttime := T + 300 }).route = _
    rw [fillStep_route]
    simp only [if_neg h]
    rw [if_neg (by omega)]

theorem c7_dwell_inclusion_witness :
    (fillFoldersFrom false {} [(("k" : String), wnW2)]).route =
      (if wnW2.lasttime - wnW2.firsttime < 300 then
        dinsert ({} : FillResult).route wnW2.lasttime
          (alookup wnW2.gps ("avg-lat"), alookup wnW2.gps ("avg-lon"))
      else ({} : FillResult).route) ∧
    (∀ T : Int,
      (output_kml_fill_folders
          [(("k" : String), { wnW2 with firsttime := T, lasttime := T + 299 })]
          false).route =
        [(T + 299, (alookup wnW2.gps ("avg-lat"), alookup wnW2.gps ("avg-lon")))]) ∧
    (∀ T : Int,
      (output_kml_fill_folders
          [(("k" : String), { wnW2 with firsttime := T, lasttime := T + 300 })]
          false).route = []) :=
  c7_dwell_inclusion false {} ("k") wnW2 (by decide)

/-- A key present after `d[k] = v` was present before, or is `k`. -/
theorem mem_keys_dinsert {κ α : Type} [DecidableEq κ] :
    ∀ (l : List (κ × α)) (k k' : κ) (v : α),
      k' ∈ (dinsert l k v).map Prod.fst → k' ∈ l.map Prod.fst ∨ k' = k
  | [], k, k', v, h => by
    simp [dinsert] at h
    exact Or.inr h
  | (a, b) :: rest, k, k', v, h => by
    by_cases hak : a = k
    · subst hak
      simp [dinsert] at h
      rcases h with h | h
      · exact Or.inr h
      · exact Or.inl (by simp [h])
    · simp [dinsert, hak] at h
      rcases h with h | h
      · exact Or.inl (by simp [h])
      · rcases mem_keys_dinsert rest k k' v (by simpa using h) with h2 | h2
        · exact Or.inl (by simp [h2])
        · exact Or.inr h2

/-- Dictionary assignment keeps the keys pairwise distinct. -/
theorem keys_dinsert_nodup {κ α : Type} [DecidableEq κ] :
    ∀ (l : List (κ × α)) (k : κ) (v : α),
      (l.map Prod.fst).Nodup → ((dinsert l k v).map Prod.fst).Nodup
  | [], k, v, _ => by simp [dinsert]
  | (a, b) :: rest, k, v, h => by
    simp only [List.map_cons] at h
    rcases List.nodup_cons.mp h with ⟨ha, hrest⟩
    by_cases hak : a = k
    · subst hak
      simp only [dinsert, if_pos rfl, List.map_cons]
      exact List.nodup_cons.mpr ⟨ha, hrest⟩
    · simp only [dinsert, if_neg hak, List.map_cons, List.nodup_cons]
      refine ⟨?_, keys_dinsert_nodup rest k v hrest⟩
      intro hmem
      rcases mem_keys_dinsert rest k a v hmem with h2 | h2
      · exact ha h2
      · exact hak h2

/-- The fold of the serializer's per-record step keeps the route keys
pairwise distinct. -/
theorem fillFoldersFrom_route_nodup (d : Bool) :
    ∀ (nets : Networks) (res : FillResult),
      (res.route.map Prod.fst).Nodup →
      ((fillFoldersFrom d res nets).route.map Prod.fst).Nodup
  | [], _, h => h
  | (k, wn) :: rest, res, h => by
    have hstep : ((fillStep d res wn).route.map Prod.fst).Nodup := by
      rw [fillStep_route]
      split_ifs
      · exact h
      · exact keys_dinsert_nodup res.route wn.lasttime _ h
      · exact h
    exact fillFoldersFrom_route_nodup d rest (fillStep d res wn) hstep

/-- A first short-dwell record writing route second 1000. -/
def wnR1 : WirelessNetwork :=
  { type := "infrastructure", firsttime := 1000, lasttime := 1000, bssid := "r1",
    gps := [(("avg-lat" : String), (1 : Rat)), (("avg-lon" : String), 11)] }

/-- A second short-dwell record whose `lasttime` resolves to the same
second as `wnR1`'s but with different coordinates. -/
def wnR2 : WirelessNetwork :=
  { type := "infrastructure", firsttime := 1000, lasttime := 1000, bssid := "r2",
    gps := [(("avg-lat" : String), (2 : Rat)), (("avg-lon" : String), 22)] }

/-- C10: the route dictionary holds at most one waypoint per second — the
keys stay pairwise distinct through the serializer's fold — and when two
qualifying short-dwell records share a `lasttime` second the one
processed later overwrites the earlier one's coordinates, leaving exactly
one entry for that second. -/
theorem c10_route_unique :
    (∀ (d : Bool) (nets : Networks) (res : FillResult),
        (res.route.map Prod.fst).Nodup →
        ((fillFoldersFrom d res nets).route.map Prod.fst).Nodup) ∧
    (output_kml_fill_folders
        [(("r1" : String), wnR1), (("r2" : String), wnR2)] false).route =
      [((1000 : Int), (some (2 : Rat), some (22 : Rat)))] := by
  refine ⟨fun d nets res h => fillFoldersFrom_route_nodup d nets res h, ?_⟩
  decide

theorem c10_route_unique_witness :
    ((fillFoldersFrom false {}
        [(("r1" : String), wnR1), (("r2" : String), wnR2)]).route.map
      Prod.fst).Nodup :=
  c10_route_unique.1 false [(("r1" : String), wnR1), (("r2" : String), wnR2)] {}
    (by simp)

end Netxml
